import Mathlib

/-!
Verification of the dockertesting library (a Go package that runs `go test`
inside a Docker container) against its natural-language specification.

The development shallowly embeds the relevant parts of the source:
* the error model (`GoError`, mirroring Go error wrapping: `fmt.Errorf` with
  a `%w` verb, and the custom `TimeoutError` of run.go),
* the build-context archiver `CreateTarContext` (container.go / part_005),
* the functional-options configuration (`Options`, `NewOptions`, part_004),
* the container session operations (`CopyFileFromContainer`, `CopyCoverage`,
  `Terminate`, `ExecTest`, `execTestWithStreaming`),
* the orchestrator `Run` (run.go), including the context value that the
  deferred cleanup closures capture and the order in which they fire.

Filesystem interaction is embedded by passing the data the Go code would
read: a `TreeFS` carries the list of entries `fs.WalkDir` would visit (in
visit order, `"."` denoting the root) and a partial read function standing
for `os.ReadFile`.  Engine interaction (testcontainers-go) is embedded as
record fields giving each engine call's outcome.
-/

/-- Go errors, as the dockertesting code builds them: `errors.New` /
`fmt.Errorf` without `%w` (`simple`), `fmt.Errorf "<tag>: %w"` (`wrapf`),
and run.go's `TimeoutError` (`timeoutErr`). -/
inductive GoError where
  | simple (msg : String)
  | wrapf (tag : String) (cause : GoError)
  | timeoutErr (operation : String) (cause : GoError)
  deriving Repr, DecidableEq

/-- The string produced by the error's `Error()` method.  `TimeoutError`
formats as `timeout during <op>: <cause>` (run.go line 20); `wrapf` keeps the
full `fmt.Errorf` text `<tag>: <cause>`. -/
def GoError.message : GoError → String
  | .simple msg => msg
  | .wrapf tag cause => tag ++ ": " ++ cause.message
  | .timeoutErr operation cause => "timeout during " ++ operation ++ ": " ++ cause.message

/-- `errors.Unwrap`: both wrapping constructors expose their cause. -/
def GoError.unwrapErr : GoError → Option GoError
  | .simple _ => none
  | .wrapf _ cause => some cause
  | .timeoutErr _ cause => some cause

/-- Whether the error is run.go's `TimeoutError`. -/
def GoError.isTimeout : GoError → Bool
  | .timeoutErr _ _ => true
  | _ => false

/-- `errors.Is`: equality with the target, else recurse into the cause. -/
def errorsIs (e target : GoError) : Bool :=
  match e with
  | .simple msg => GoError.simple msg == target
  | .wrapf tag cause => (GoError.wrapf tag cause == target) || errorsIs cause target
  | .timeoutErr operation cause =>
      (GoError.timeoutErr operation cause == target) || errorsIs cause target

/-- The observable state of a `context.Context`: what `ctx.Err()` returns. -/
inductive CtxState where
  | live
  | canceled
  | deadlineExceeded
  deriving Repr, DecidableEq

/-- Body of run.go's `wrapTimeoutError` for a non-nil error: a `TimeoutError`
when the governing context's deadline has been exceeded, otherwise a plain
`fmt.Errorf "failed to <operation>: %w"` wrap. -/
def wrapTimeoutErrorSome (ctxErr : CtxState) (e : GoError) (operation : String) : GoError :=
  if ctxErr = .deadlineExceeded then .timeoutErr operation e
  else .wrapf ("failed to " ++ operation) e

/-- run.go `wrapTimeoutError`: nil error stays nil. -/
def wrapTimeoutError (ctxErr : CtxState) (err : Option GoError) (operation : String) :
    Option GoError :=
  match err with
  | none => none
  | some e => some (wrapTimeoutErrorSome ctxErr e operation)

/-- `DefaultPattern` (part_004). -/
def DefaultPattern : String := "./..."

/-- `DefaultSockPath` (part_004). -/
def DefaultSockPath : String := "/var/run/docker.sock"

/-- `DefaultCoverageFile` (part_001). -/
def DefaultCoverageFile : String := "/tmp/coverage.txt"

/-- One `time.Minute` in nanoseconds (Go `time.Duration` is a nanosecond count). -/
def timeMinute : Int := 60 * 1000000000

/-- `DefaultTimeout = 10 * time.Minute` (part_004). -/
def DefaultTimeout : Int := 10 * timeMinute

/-- `DefaultExecTimeout = 10 * time.Minute` (exec.go). -/
def DefaultExecTimeout : Int := 10 * timeMinute

/-- The embedded `template.Dockerfile` contents (the built-in default recipe). -/
def dockerfileTemplate : String :=
  "# Dockerfile for running Go tests inside a container\nARG GO_VERSION=1.25.6\n\nFROM golang:$\x7bGO_VERSION\x7d\n\nWORKDIR /app\n\n# Copy the entire package (build context)\nCOPY . .\n\n# Download dependencies\nRUN go mod download\n\n# Keep container alive for exec commands\nENTRYPOINT [\"/bin/sh\", \"-c\", \"trap \x27exit 0\x27 TERM; while :; do sleep 0.1; done\"]"

/-- Kind and payload of a filesystem entry met during the walk. -/
inductive FsKind where
  | file (content : String)
  | dir
  | symlink (target : String)
  deriving Repr, DecidableEq

/-- The filesystem as `CreateTarContext` observes it: `walk` is the sequence
of `(path, entry)` pairs `fs.WalkDir(os.DirFS(contextPath), ".")` visits, in
visit order, with `"."` for the root; `readFile` stands for `os.ReadFile` on
absolute paths (used for a custom Dockerfile override). -/
structure TreeFS where
  contextPath : String
  walk : List (String × FsKind)
  readFile : String → Option String

/-- An entry of the produced tar archive: header name plus, for regular
files, the streamed bytes, and for symlinks the recorded link target. -/
inductive TarEntry where
  | file (name : String) (content : String)
  | dir (name : String)
  | symlink (name : String) (target : String)
  deriving Repr, DecidableEq

/-- The tar header's `Name` field. -/
def TarEntry.name : TarEntry → String
  | .file n _ => n
  | .dir n => n
  | .symlink n _ => n

/-- `filepath.Base` restricted to the clean relative paths `fs.WalkDir`
produces: the part after the last slash. -/
def filepathBase (p : String) : String :=
  String.mk ((p.toList.reverse.takeWhile (fun c => c ≠ '/')).reverse)

/-- `filepath.IsAbs` (unix): the path starts with a slash. -/
def filepathIsAbs (p : String) : Bool :=
  match p.toList with
  | [] => false
  | c :: _ => c == '/'

/-- `filepath.Join(contextPath, p)` for the clean paths used here. -/
def filepathJoin (a b : String) : String :=
  a ++ "/" ++ b

/-- Resolution of the custom Dockerfile path in `CreateTarContext`:
absolute paths are used as-is, relative ones are joined to the context. -/
def resolveDockerfilePath (contextPath dockerfilePath : String) : String :=
  if filepathIsAbs dockerfilePath then dockerfilePath
  else filepathJoin contextPath dockerfilePath

/-- The walk callback of `CreateTarContext`: skip the root entry (`"."`),
skip any entry whose base name is `"Dockerfile"`, and otherwise emit a tar
entry named by the walk path, with file bytes copied and symlink targets
recorded. -/
def walkEntryToTar : String × FsKind → Option TarEntry
  | (p, k) =>
    if p = "." then none
    else if filepathBase p = "Dockerfile" then none
    else some (match k with
      | .file content => .file p content
      | .dir => .dir p
      | .symlink target => .symlink p target)

/-- `CreateTarContext(contextPath, dockerfilePath)` (part_005): resolve the
recipe content (embedded template when the override is empty, else the bytes
at the resolved override path, failing with an error naming that path), walk
the tree emitting entries, then append the single `"Dockerfile"` entry. -/
def CreateTarContext (fs : TreeFS) (dockerfilePath : String) :
    Except String (List TarEntry) :=
  match
    (if dockerfilePath = "" then Except.ok dockerfileTemplate
     else
       match fs.readFile (resolveDockerfilePath fs.contextPath dockerfilePath) with
       | some content => Except.ok content
       | none => Except.error ("failed to read custom Dockerfile at "
           ++ resolveDockerfilePath fs.contextPath dockerfilePath)) with
  | Except.error e => Except.error e
  | Except.ok dockerfileContent =>
      Except.ok (fs.walk.filterMap walkEntryToTar ++ [TarEntry.file "Dockerfile" dockerfileContent])

/-- The configuration record built by `NewOptions` (part_004).  `timeout`
is a Go `time.Duration`, i.e. a signed nanosecond count. -/
structure Options where
  packagePath : String
  pattern : String
  args : List String
  aliases : List String
  enableVarSock : Bool
  sockPath : String
  timeout : Int
  deriving Repr, DecidableEq

/-- The functional options of part_004, as first-order data: each
constructor is one `WithX(...)` call. -/
inductive Opt where
  | withPattern (pattern : String)
  | withArgs (args : List String)
  | withAliases (aliases : List String)
  | withVarSock
  | withSockPath (p : String)
  | withTimeout (timeout : Int)
  deriving Repr, DecidableEq

/-- Application of one option closure to the draft `Options` (part_004):
`WithArgs` and `WithAliases` append (cumulative), the others overwrite. -/
def applyOpt (o : Options) : Opt → Options
  | .withPattern pattern => { o with pattern := pattern }
  | .withArgs args => { o with args := o.args ++ args }
  | .withAliases aliases => { o with aliases := o.aliases ++ aliases }
  | .withVarSock => { o with enableVarSock := true }
  | .withSockPath p => { o with sockPath := p }
  | .withTimeout timeout => { o with timeout := timeout }

/-- `NewOptions` (part_004): empty package path is rejected, otherwise the
defaults are installed and the option closures are applied in call order. -/
def NewOptions (packagePath : String) (opts : List Opt) : Except GoError Options :=
  if packagePath = "" then .error (.simple "package path is required")
  else .ok (opts.foldl applyOpt
    { packagePath := packagePath
      pattern := DefaultPattern
      args := []
      aliases := []
      enableVarSock := false
      sockPath := DefaultSockPath
      timeout := DefaultTimeout })

/-- Behavior of the multiplexed output reader returned by `ctr.Exec`:
either `io.ReadAll` yields the combined bytes, or it fails mid-read. -/
inductive StreamOut where
  | content (s : String)
  | readFail (e : GoError)

/-- Outcome of the engine's `CopyFileFromContainer` call followed by reading
the returned stream.  `notFound` and `engineFail` both surface as a non-nil
error from testcontainers-go; the split records what the error means. -/
inductive CopyOutcome where
  | found (content : String)
  | foundReadFail (e : GoError)
  | notFound (e : GoError)
  | engineFail (e : GoError)
  deriving Repr, DecidableEq

/-- The running container handle (`testcontainers.Container`), embedded as
the outcomes of the engine calls made through it: `Exec` (keyed by the argv
it is given), `CopyFileFromContainer`, and `Terminate`. -/
structure EngineContainer where
  exec : List String → Except GoError (Int × Option StreamOut)
  copy : String → CopyOutcome
  terminateRes : Except GoError Unit

/-- `TestContainer` (part_005): wraps a possibly-nil container handle. -/
structure TestContainer where
  ctr : Option EngineContainer

/-- `TestContainer.Terminate` (part_005): no-op returning nil on a nil
handle, otherwise the engine call with its failure wrapped. -/
def TestContainer.Terminate (c : TestContainer) : Option GoError :=
  match c.ctr with
  | none => none
  | some eng =>
      match eng.terminateRes with
      | .ok _ => none
      | .error e => some (.wrapf "failed to terminate container" e)

/-- `TestContainer.CopyFileFromContainer` (part_001).  `Except.ok none`
models the Go return `(nil, nil)`; note the code returns it whenever the
engine copy call errors, whatever the error was. -/
def TestContainer.CopyFileFromContainer (c : TestContainer) (containerFilePath : String) :
    Except GoError (Option String) :=
  match c.ctr with
  | none => .error (.simple "container is nil")
  | some eng =>
      match eng.copy containerFilePath with
      | .found content => .ok (some content)
      | .foundReadFail e => .error (.wrapf "failed to read file content" e)
      | .notFound _ => .ok none
      | .engineFail _ => .ok none

/-- `TestContainer.CopyCoverage` (part_001): copy from the default path. -/
def TestContainer.CopyCoverage (c : TestContainer) : Except GoError (Option String) :=
  c.CopyFileFromContainer DefaultCoverageFile

/-- `ExecResult` (exec.go): captured combined output (`none` models a nil
byte slice, left when the reader was nil) and the process exit code. -/
structure ExecResult where
  stdout : Option String
  exitCode : Int
  deriving Repr, DecidableEq

/-- The `go test` argv built by `execTestWithStreaming` (run.go lines
144-151): fixed head, coverage flag at the default in-container path, the
configured pattern, then the extra args. -/
def buildTestCmd (options : Options) : List String :=
  ["go", "test", "-coverprofile=" ++ DefaultCoverageFile, options.pattern] ++ options.args

/-- `execTestWithStreaming` (run.go): nil-handle fast fail, run the built
argv through `Exec`, wrap failures through `wrapTimeoutError`, read/stream
the output.  `ctxErr` is the governing context's state when an error is
wrapped. -/
def execTestWithStreaming (ctxErr : CtxState) (container : TestContainer)
    (options : Options) : Except GoError ExecResult :=
  match container.ctr with
  | none => .error (.simple "container is nil")
  | some eng =>
      match eng.exec (buildTestCmd options) with
      | .error e => .error (wrapTimeoutErrorSome ctxErr e "execute test command")
      | .ok (exitCode, none) => .ok ⟨none, exitCode⟩
      | .ok (exitCode, some (.content s)) => .ok ⟨some s, exitCode⟩
      | .ok (_exitCode, some (.readFail e)) =>
          .error (wrapTimeoutErrorSome ctxErr e "read test output")

/-- Strip trailing zero digits (used by duration formatting). -/
def dropTrailingZeros (s : String) : String :=
  String.mk ((s.toList.reverse.dropWhile (fun c => c = '0')).reverse)

/-- Left-pad with zero digits to the given width. -/
def padLeftZeros (s : String) (n : Nat) : String :=
  if s.length ≥ n then s else String.mk (List.replicate (n - s.length) '0') ++ s

/-- Go `time.Duration` fraction formatting: split `u` at `10 ^ prec`, print
the fraction without trailing zeros (empty when zero), return the rest. -/
def fmtFrac (u : Nat) (prec : Nat) : String × Nat :=
  let p := 10 ^ prec
  let frac := u % p
  let rest := u / p
  if frac = 0 then ("", rest)
  else ("." ++ dropTrailingZeros (padLeftZeros (toString frac) prec), rest)

/-- Go `time.Duration.String()` (used by exec.go's timeout error text). -/
def goDurationString (d : Int) : String :=
  let u := d.natAbs
  let core :=
    if u = 0 then "0s"
    else if u < 1000000000 then
      if u < 1000 then toString u ++ "ns"
      else if u < 1000000 then
        let fr := fmtFrac u 3
        toString fr.2 ++ fr.1 ++ "µs"
      else
        let fr := fmtFrac u 6
        toString fr.2 ++ fr.1 ++ "ms"
    else
      let fr := fmtFrac u 9
      let sPart := toString (fr.2 % 60) ++ fr.1 ++ "s"
      let mins := fr.2 / 60
      if mins = 0 then sPart
      else
        let mPart := toString (mins % 60) ++ "m" ++ sPart
        let hrs := mins / 60
        if hrs = 0 then mPart else toString hrs ++ "h" ++ mPart
  if d < 0 then "-" ++ core else core

/-- `ExecConfig` (exec.go). -/
structure ExecConfig where
  pattern : String
  args : List String
  coverageFile : String
  timeout : Int

/-- `TestContainer.ExecTest` (exec.go): nil-handle fast fail, defaults for
pattern / coverage file / timeout, build the argv, execute under a bounded
sub-context (`ctxErr` is that sub-context's state at the error check), and
read the output. -/
def TestContainer.ExecTest (c : TestContainer) (ctxErr : CtxState) (cfg : ExecConfig) :
    Except GoError ExecResult :=
  match c.ctr with
  | none => .error (.simple "container is nil")
  | some eng =>
      let cfg1 := if cfg.pattern = "" then { cfg with pattern := DefaultPattern } else cfg
      let cfg2 := if cfg1.coverageFile = "" then { cfg1 with coverageFile := "/tmp/coverage.txt" }
                  else cfg1
      let cfg3 := if cfg2.timeout = 0 then { cfg2 with timeout := DefaultExecTimeout } else cfg2
      let cmd := ["go", "test", "-coverprofile=" ++ cfg3.coverageFile, cfg3.pattern] ++ cfg3.args
      match eng.exec cmd with
      | .error e =>
          if ctxErr = .deadlineExceeded then
            .error (.wrapf ("test execution timed out after " ++ goDurationString cfg3.timeout) e)
          else .error (.wrapf "failed to execute test command" e)
      | .ok (exitCode, none) => .ok ⟨none, exitCode⟩
      | .ok (exitCode, some (.content s)) => .ok ⟨some s, exitCode⟩
      | .ok (_exitCode, some (.readFail e)) => .error (.wrapf "failed to read test output" e)

/-- The Docker network session (network.go): the generated name and the
outcome its `Remove` call would have. -/
structure NetworkModel where
  name : String
  removeRes : Except GoError Unit

/-- Result of the cleanup closure `CreateNetwork` returns (network.go):
`net.Remove` wrapped with the removal tag, nil on success. -/
def networkCleanupResult (net : NetworkModel) : Option GoError :=
  match net.removeRes with
  | .ok _ => none
  | .error e => some (.wrapf "failed to remove docker network" e)

/-- The context value a step of `Run` operates under: the caller's ambient
context, or the sub-context `context.WithTimeout` derives from it. -/
inductive CtxKind where
  | ambient
  | bounded (timeoutNs : Int)
  deriving Repr, DecidableEq

/-- The context `Run`'s body (and its deferred cleanups, which capture the
reassigned `ctx` variable) uses: bounded iff `options.Timeout > 0`
(run.go lines 78-83). -/
def runCtxKind (options : Options) : CtxKind :=
  if options.timeout > 0 then .bounded options.timeout else .ambient

/-- A deferred cleanup call as it fires: which resource, the context value
it was invoked with, and the error it produced — which `Run` discards
(`_ =`), recorded here only to state that it cannot reach the result. -/
inductive CleanupEvent where
  | terminateContainer (ctx : CtxKind) (discarded : Option GoError)
  | cleanupNetwork (ctx : CtxKind) (discarded : Option GoError)
  deriving Repr, DecidableEq

/-- The context value a cleanup event was invoked with. -/
def CleanupEvent.ctxOf : CleanupEvent → CtxKind
  | .terminateContainer ctx _ => ctx
  | .cleanupNetwork ctx _ => ctx

/-- Engine-side outcomes for one `Run` invocation: the results of
`CreateNetwork` and `CreateContainer`, and the governing context's state at
each of `Run`'s three `wrapTimeoutError` call sites. -/
structure RunEnv where
  netRes : Except GoError NetworkModel
  ctrRes : Except GoError TestContainer
  ctxAtNet : CtxState
  ctxAtCtr : CtxState
  ctxAtExec : CtxState

/-- `Result` (run.go): combined output, optional coverage bytes, exit code. -/
structure RunResult where
  stdout : Option String
  coverage : Option String
  exitCode : Int
  deriving Repr, DecidableEq

/-- The coverage value `Run` stores: `container.CopyCoverage(ctx)` with a
failure treated as non-fatal (`coverage = nil`, run.go lines 124-129). -/
def runCoverage (container : TestContainer) : Option String :=
  match container.CopyCoverage with
  | .error _ => none
  | .ok c => c

/-- The tail of `Run` once both sessions exist (run.go lines 118-135): test
execution with its error wrapped as phase "execute tests", then the
non-fatal coverage copy; on every exit from here both deferred cleanups
fire, container termination (registered last, so first) before network
cleanup. -/
def runExecPhase (env : RunEnv) (options : Options) (net : NetworkModel)
    (container : TestContainer) : Except GoError RunResult × List CleanupEvent :=
  match execTestWithStreaming env.ctxAtExec container options with
  | .error e =>
      (.error (wrapTimeoutErrorSome env.ctxAtExec e "execute tests"),
        [.terminateContainer (runCtxKind options) container.Terminate,
         .cleanupNetwork (runCtxKind options) (networkCleanupResult net)])
  | .ok er =>
      (.ok ⟨er.stdout, runCoverage container, er.exitCode⟩,
        [.terminateContainer (runCtxKind options) container.Terminate,
         .cleanupNetwork (runCtxKind options) (networkCleanupResult net)])

/-- `Run` from container creation on (run.go lines 98-116): a creation
failure is wrapped as phase "create container" and only the already
registered network cleanup fires. -/
def runContainerPhase (env : RunEnv) (options : Options) (net : NetworkModel) :
    Except GoError RunResult × List CleanupEvent :=
  match env.ctrRes with
  | .error e =>
      (.error (wrapTimeoutErrorSome env.ctxAtCtr e "create container"),
        [.cleanupNetwork (runCtxKind options) (networkCleanupResult net)])
  | .ok container => runExecPhase env options net container

/-- `Run` from network creation on (run.go lines 85-96): a creation failure
is wrapped as phase "create network" with no cleanup registered yet. -/
def runNetworkPhase (env : RunEnv) (options : Options) :
    Except GoError RunResult × List CleanupEvent :=
  match env.netRes with
  | .error e => (.error (wrapTimeoutErrorSome env.ctxAtNet e "create network"), [])
  | .ok net => runContainerPhase env options net

/-- `Run` (run.go), paired with the sequence of deferred cleanup calls as
they fire on that exit path (Go defers run LIFO: the container's `Terminate`
— registered second — fires before the network cleanup).  Mirrors the source
order: options, timeout sub-context (`runCtxKind`, captured by the deferred
closures), network, container, test execution, coverage copy, result. -/
def Run (env : RunEnv) (packagePath : String) (opts : List Opt) :
    Except GoError RunResult × List CleanupEvent :=
  match NewOptions packagePath opts with
  | .error e => (.error (.wrapf "invalid options" e), [])
  | .ok options => runNetworkPhase env options

/-- The concatenation, in call order, of all argument lists supplied through
`WithArgs` options (formalizes "cumulative and order-preserving"). -/
def argsOfOpts : List Opt → List String
  | [] => []
  | .withArgs args :: rest => args ++ argsOfOpts rest
  | _ :: rest => argsOfOpts rest

/-- Whether an option is a `WithPattern` call. -/
def isWithPattern : Opt → Bool
  | .withPattern _ => true
  | _ => false

/-- Whether an option is a `WithTimeout` call. -/
def isWithTimeout : Opt → Bool
  | .withTimeout _ => true
  | _ => false

/-- A tree whose only entry is a top-level `Dockerfile` whose bytes happen
to equal the embedded default template. -/
def fsDockerfileOnly : TreeFS :=
  { contextPath := "/pkg"
    walk := [(".", FsKind.dir), ("Dockerfile", FsKind.file dockerfileTemplate)]
    readFile := fun _ => none }

/-- A tree with a `Dockerfile` nested inside a subdirectory. -/
def fsNestedDockerfile : TreeFS :=
  { contextPath := "/pkg"
    walk := [(".", FsKind.dir), ("sub", FsKind.dir),
             ("sub/Dockerfile", FsKind.file "FROM scratch")]
    readFile := fun _ => none }

/-- A tree with a file and a symlink, plus a readable custom Dockerfile at
the tree-relative path `custom.Dockerfile`. -/
def fsOverride : TreeFS :=
  { contextPath := "/pkg"
    walk := [(".", FsKind.dir), ("link", FsKind.symlink "main.go"),
             ("main.go", FsKind.file "package main")]
    readFile := fun p => if p = "/pkg/custom.Dockerfile" then some "FROM alpine" else none }

/-- The archive `CreateTarContext fsOverride "custom.Dockerfile"` yields. -/
def arOverride : List TarEntry :=
  [TarEntry.symlink "link" "main.go", TarEntry.file "main.go" "package main",
   TarEntry.file "Dockerfile" "FROM alpine"]

/-- A tree with a nested subdirectory containing a file. -/
def fsSubdir : TreeFS :=
  { contextPath := "/pkg"
    walk := [(".", FsKind.dir), ("go.mod", FsKind.file "module test"),
             ("sub", FsKind.dir), ("sub/helper.go", FsKind.file "package sub")]
    readFile := fun _ => none }

/-- The archive `CreateTarContext fsSubdir ""` yields. -/
def arSubdir : List TarEntry :=
  [TarEntry.file "go.mod" "module test", TarEntry.dir "sub",
   TarEntry.file "sub/helper.go" "package sub",
   TarEntry.file "Dockerfile" dockerfileTemplate]

/-- A live container whose engine copy call fails with a genuine transport
error (not a file-not-found condition). -/
def engCopyConnRefused : EngineContainer :=
  { exec := fun _ => .error (.simple "not exercised")
    copy := fun _ => .engineFail (.simple "connection refused")
    terminateRes := .ok () }

/-- A live container in which the requested file does not exist. -/
def engCopyNotFound : EngineContainer :=
  { exec := fun _ => .error (.simple "not exercised")
    copy := fun _ => .notFound (.simple "file does not exist")
    terminateRes := .ok () }

/-- A live container holding a coverage file at the default path. -/
def engCopyFound : EngineContainer :=
  { exec := fun _ => .error (.simple "not exercised")
    copy := fun p => if p = "/tmp/coverage.txt" then .found "mode: set"
                     else .notFound (.simple "file does not exist")
    terminateRes := .ok () }

/-- A container whose engine calls all fail with the engine's deadline
error, as they do once the bounded context has expired. -/
def engDeadline : EngineContainer :=
  { exec := fun _ => .error (.simple "context deadline exceeded")
    copy := fun _ => .engineFail (.simple "context deadline exceeded")
    terminateRes := .error (.simple "context deadline exceeded") }

/-- A network whose removal fails with the engine's deadline error. -/
def netDeadline : NetworkModel :=
  { name := "testcontainers-net", removeRes := .error (.simple "context deadline exceeded") }

/-- A `Run` in which network and container creation succeed but the
deadline expires during test execution. -/
def envDeadline : RunEnv :=
  { netRes := .ok netDeadline
    ctrRes := .ok ⟨some engDeadline⟩
    ctxAtNet := .live
    ctxAtCtr := .live
    ctxAtExec := .deadlineExceeded }

/-- The `Options` value `NewOptions "/pkg" [Opt.withTimeout 1]` builds. -/
def optionsTimeout1 : Options :=
  { packagePath := "/pkg", pattern := "./...", args := [], aliases := []
    enableVarSock := false, sockPath := "/var/run/docker.sock", timeout := 1 }

/-- A container whose test executes and exits with code 1 (a failing test
run) after printing output. -/
def engExitOne : EngineContainer :=
  { exec := fun cmd =>
      if cmd = ["go", "test", "-coverprofile=/tmp/coverage.txt", "./...", "-v"]
      then .ok (1, some (.content "--- FAIL: TestX")) else .error (.simple "unexpected argv")
    copy := fun _ => .notFound (.simple "file does not exist")
    terminateRes := .ok () }

/-- A `Run` under a live context whose test run fails (exit code 1). -/
def envExitOne : RunEnv :=
  { netRes := .ok ⟨"net", .ok ()⟩
    ctrRes := .ok ⟨some engExitOne⟩
    ctxAtNet := .live
    ctxAtCtr := .live
    ctxAtExec := .live }

/-- The `Options` value `NewOptions "/pkg" [Opt.withArgs ["-v"]]` builds. -/
def optionsVerbose : Options :=
  { packagePath := "/pkg", pattern := "./...", args := ["-v"], aliases := []
    enableVarSock := false, sockPath := "/var/run/docker.sock", timeout := DefaultTimeout }

/-- A cumulative-options example: two `WithArgs` calls around a
`WithAliases` call. -/
def optsCumulative : List Opt :=
  [Opt.withArgs ["-v"], Opt.withAliases ["api.test"], Opt.withArgs ["-race", "-count=1"]]

/-- The `Options` value `NewOptions "/pkg" optsCumulative` builds. -/
def optionsCumulative : Options :=
  { packagePath := "/pkg", pattern := "./...", args := ["-v", "-race", "-count=1"]
    aliases := ["api.test"], enableVarSock := false
    sockPath := "/var/run/docker.sock", timeout := DefaultTimeout }

/-- The `Options` value `NewOptions "/pkg" []` builds (all defaults). -/
def optionsDefault : Options :=
  { packagePath := "/pkg", pattern := "./...", args := [], aliases := []
    enableVarSock := false, sockPath := "/var/run/docker.sock", timeout := DefaultTimeout }

theorem walkEntryToTar_name_ne {e : String × FsKind} {t : TarEntry}
    (h : walkEntryToTar e = some t) : t.name ≠ "Dockerfile" := by
  obtain ⟨p, k⟩ := e
  unfold walkEntryToTar at h
  by_cases hp : p = "."
  · simp [hp] at h
  · by_cases hb : filepathBase p = "Dockerfile"
    · simp [hp, hb] at h
    · simp only [if_neg hp, if_neg hb, Option.some.injEq] at h
      have hname : t.name = p := by
        subst h
        cases k <;> rfl
      rw [hname]
      intro hpd
      apply hb
      rw [hpd]
      decide

theorem filterMap_walk_name_ne (fs : TreeFS) :
    ∀ t ∈ fs.walk.filterMap walkEntryToTar, t.name ≠ "Dockerfile" := by
  intro t ht
  obtain ⟨e, -, he⟩ := List.mem_filterMap.mp ht
  exact walkEntryToTar_name_ne he

theorem getLast?_append_one {α : Type} (l : List α) (a : α) :
    (l ++ [a]).getLast? = some a :=
  List.getLast?_concat _

theorem archive_filter_dockerfile (fs : TreeFS) (content : String) :
    ((fs.walk.filterMap walkEntryToTar ++ [TarEntry.file "Dockerfile" content]).filter
      (fun t => t.name == "Dockerfile")) = [TarEntry.file "Dockerfile" content] := by
  rw [List.filter_append]
  have h1 : (fs.walk.filterMap walkEntryToTar).filter (fun t => t.name == "Dockerfile") = [] := by
    rw [List.filter_eq_nil_iff]
    intro t ht
    simpa using filterMap_walk_name_ne fs t ht
  rw [h1]
  simp [TarEntry.name]

theorem archive_not_mem_other (fs : TreeFS) (content c : String) (hc : c ≠ content) :
    TarEntry.file "Dockerfile" c ∉
      (fs.walk.filterMap walkEntryToTar ++ [TarEntry.file "Dockerfile" content]) := by
  intro hmem
  rcases List.mem_append.mp hmem with hleft | hright
  · exact filterMap_walk_name_ne fs _ hleft rfl
  · rcases List.mem_singleton.mp hright with h
    exact hc (by injection h with h1 h2)

/-- Claim C1 (amended): a successful `CreateTarContext` produces an archive
whose sole `"Dockerfile"` entry is the one appended after the walk; its
content is the embedded default template when the override is empty and the
bytes read at the resolved override path (relative to the tree, or absolute)
otherwise; any on-disk file content differing from that chosen content never
appears as the archive's `"Dockerfile"` entry. -/
theorem c1_recipe_entry (fs : TreeFS) (dockerfilePath : String) (ar : List TarEntry)
    (h : CreateTarContext fs dockerfilePath = .ok ar) :
    ∃ content,
      ar.getLast? = some (TarEntry.file "Dockerfile" content) ∧
      ar.filter (fun t => t.name == "Dockerfile") = [TarEntry.file "Dockerfile" content] ∧
      (dockerfilePath = "" → content = dockerfileTemplate) ∧
      (dockerfilePath ≠ "" →
        fs.readFile (resolveDockerfilePath fs.contextPath dockerfilePath) = some content) ∧
      (∀ q c, (q, FsKind.file c) ∈ fs.walk → c ≠ content →
        TarEntry.file "Dockerfile" c ∉ ar) := by
  unfold CreateTarContext at h
  by_cases hd : dockerfilePath = ""
  · subst hd
    rw [if_pos rfl] at h
    have har := Except.ok.inj h
    subst har
    exact ⟨dockerfileTemplate, getLast?_append_one _ _, archive_filter_dockerfile fs _,
      fun _ => rfl, fun hne => absurd rfl hne,
      fun q c _ hc => archive_not_mem_other fs _ c hc⟩
  · rw [if_neg hd] at h
    rcases hr : fs.readFile (resolveDockerfilePath fs.contextPath dockerfilePath) with _ | content
    · rw [hr] at h
      simp at h
    · rw [hr] at h
      have har := Except.ok.inj h
      subst har
      exact ⟨content, getLast?_append_one _ _, archive_filter_dockerfile fs _,
        fun heq => absurd heq hd, fun _ => rfl,
        fun q c _ hc => archive_not_mem_other fs _ c hc⟩

/-- Claim C1 counterexample: for a tree whose on-disk `Dockerfile` content C
happens to equal the default template, `CreateTarContext` with an empty
override produces a `"Dockerfile"` archive entry that IS C — refuting the
claim's unconditional "the archive's Dockerfile entry is never C". -/
theorem c1_counterexample :
    ("Dockerfile", FsKind.file dockerfileTemplate) ∈ fsDockerfileOnly.walk ∧
    CreateTarContext fsDockerfileOnly "" =
      .ok [TarEntry.file "Dockerfile" dockerfileTemplate] ∧
    TarEntry.file "Dockerfile" dockerfileTemplate ∈
      [TarEntry.file "Dockerfile" dockerfileTemplate] := by
  refine ⟨?_, rfl, ?_⟩
  · simp [fsDockerfileOnly]
  · simp

/-- Witness for the C1 theorem at a concrete tree and a relative override
path, with the archive computed by evaluation. -/
theorem c1_witness :
    ∃ content,
      arOverride.getLast? = some (TarEntry.file "Dockerfile" content) ∧
      arOverride.filter (fun t => t.name == "Dockerfile") = [TarEntry.file "Dockerfile" content] ∧
      ("custom.Dockerfile" = "" → content = dockerfileTemplate) ∧
      ("custom.Dockerfile" ≠ "" →
        fsOverride.readFile (resolveDockerfilePath fsOverride.contextPath "custom.Dockerfile") =
          some content) ∧
      (∀ q c, (q, FsKind.file c) ∈ fsOverride.walk → c ≠ content →
        TarEntry.file "Dockerfile" c ∉ arOverride) :=
  c1_recipe_entry fsOverride "custom.Dockerfile" arOverride (by rfl)

/-- Claim C2 (amended): with an empty override, every walk entry other than
the tree root and entries whose base name is `"Dockerfile"` (at any depth)
appears in the archive — directories as directory entries, regular files
byte-for-byte, symlinks with their recorded target — and the appended
`"Dockerfile"` entry carries the built-in default content. -/
theorem c2_walk_entries (fs : TreeFS) (ar : List TarEntry)
    (h : CreateTarContext fs "" = .ok ar) (q : String) (k : FsKind)
    (hmem : (q, k) ∈ fs.walk) (hroot : q ≠ ".") (hbase : filepathBase q ≠ "Dockerfile") :
    (∀ c, k = FsKind.file c → TarEntry.file q c ∈ ar) ∧
    (k = FsKind.dir → TarEntry.dir q ∈ ar) ∧
    (∀ t, k = FsKind.symlink t → TarEntry.symlink q t ∈ ar) ∧
    ar.getLast? = some (TarEntry.file "Dockerfile" dockerfileTemplate) := by
  have har : ar = fs.walk.filterMap walkEntryToTar
      ++ [TarEntry.file "Dockerfile" dockerfileTemplate] := by
    unfold CreateTarContext at h
    rw [if_pos rfl] at h
    exact (Except.ok.inj h).symm
  subst har
  have hmk : ∀ t : TarEntry, walkEntryToTar (q, k) = some t →
      t ∈ fs.walk.filterMap walkEntryToTar ++ [TarEntry.file "Dockerfile" dockerfileTemplate] :=
    fun t ht => List.mem_append_left _ (List.mem_filterMap.mpr ⟨(q, k), hmem, ht⟩)
  refine ⟨?_, ?_, ?_, getLast?_append_one _ _⟩
  · intro c hk
    subst hk
    exact hmk _ (by simp [walkEntryToTar, hroot, hbase])
  · intro hk
    subst hk
    exact hmk _ (by simp [walkEntryToTar, hroot, hbase])
  · intro t hk
    subst hk
    exact hmk _ (by simp [walkEntryToTar, hroot, hbase])

/-- Claim C2 counterexample: a `Dockerfile` nested below a subdirectory —
not a top-level one — is also dropped from the archive, refuting the
claim's "except a literal top-level Dockerfile" scoping. -/
theorem c2_counterexample :
    ("sub/Dockerfile", FsKind.file "FROM scratch") ∈ fsNestedDockerfile.walk ∧
    "sub/Dockerfile" ≠ "." ∧
    CreateTarContext fsNestedDockerfile "" =
      .ok [TarEntry.dir "sub", TarEntry.file "Dockerfile" dockerfileTemplate] ∧
    TarEntry.file "sub/Dockerfile" "FROM scratch" ∉
      [TarEntry.dir "sub", TarEntry.file "Dockerfile" dockerfileTemplate] := by
  refine ⟨?_, ?_, rfl, ?_⟩
  · simp [fsNestedDockerfile]
  · decide
  · decide

/-- Witness for the C2 theorem: a nested subdirectory yields both the
directory entry and the file entry with matching content. -/
theorem c2_witness :
    CreateTarContext fsSubdir "" = .ok arSubdir ∧
    TarEntry.dir "sub" ∈ arSubdir ∧
    TarEntry.file "sub/helper.go" "package sub" ∈ arSubdir :=
  ⟨by rfl,
   (c2_walk_entries fsSubdir arSubdir (by rfl) "sub" FsKind.dir (by simp [fsSubdir])
      (by decide) (by decide)).2.1 rfl,
   (c2_walk_entries fsSubdir arSubdir (by rfl) "sub/helper.go" (FsKind.file "package sub")
      (by simp [fsSubdir]) (by decide) (by decide)).1 "package sub" rfl⟩

/-- Claim C3 (amended): `CopyFileFromContainer` on a live container returns
nil bytes with nil error whenever the engine-level copy call fails — the
file-not-found case and any other engine failure alike — so the nil,nil
outcome does not single out "file does not exist"; only a failure while
reading an already-opened stream yields a non-nil error; a found file's
bytes are returned; and `CopyCoverage` is the same operation at the default
coverage path. -/
theorem c3_copy_absent :
    (∀ (eng : EngineContainer) (fp : String),
      TestContainer.CopyFileFromContainer ⟨some eng⟩ fp = .ok none ↔
        ((∃ e, eng.copy fp = .notFound e) ∨ (∃ e, eng.copy fp = .engineFail e))) ∧
    (∀ (eng : EngineContainer) (fp : String) (e : GoError),
      eng.copy fp = .foundReadFail e →
      TestContainer.CopyFileFromContainer ⟨some eng⟩ fp =
        .error (.wrapf "failed to read file content" e)) ∧
    (∀ (eng : EngineContainer) (fp : String) (content : String),
      eng.copy fp = .found content →
      TestContainer.CopyFileFromContainer ⟨some eng⟩ fp = .ok (some content)) ∧
    (∀ c : TestContainer, c.CopyCoverage = c.CopyFileFromContainer "/tmp/coverage.txt") := by
  refine ⟨?_, ?_, ?_, fun c => rfl⟩
  · intro eng fp
    unfold TestContainer.CopyFileFromContainer
    rcases h : eng.copy fp with content | e | e | e <;> simp [h]
  · intro eng fp e h
    simp [TestContainer.CopyFileFromContainer, h]
  · intro eng fp content h
    simp [TestContainer.CopyFileFromContainer, h]

/-- Claim C3 counterexample: a genuine engine-level retrieval failure (a
transport error, not file-not-found) still yields nil bytes and a nil
error, so the nil,nil outcome does not characterize "file does not exist"
and genuine retrieval failures at the copy stage are not surfaced. -/
theorem c3_counterexample :
    engCopyConnRefused.copy "/tmp/coverage.txt" = .engineFail (.simple "connection refused") ∧
    engCopyConnRefused.copy "/tmp/coverage.txt" ≠ .notFound (.simple "connection refused") ∧
    TestContainer.CopyFileFromContainer ⟨some engCopyConnRefused⟩ "/tmp/coverage.txt" =
      .ok none := by
  exact ⟨rfl, by decide, rfl⟩

/-- Witness for the C3 theorem: the not-found case returns nil,nil, a found
file's bytes come back, and `CopyCoverage` delegates to the default path. -/
theorem c3_witness :
    TestContainer.CopyFileFromContainer ⟨some engCopyNotFound⟩ "/tmp/coverage.txt" = .ok none ∧
    TestContainer.CopyFileFromContainer ⟨some engCopyFound⟩ "/tmp/coverage.txt" =
      .ok (some "mode: set") ∧
    TestContainer.CopyCoverage ⟨some engCopyNotFound⟩ =
      TestContainer.CopyFileFromContainer ⟨some engCopyNotFound⟩ "/tmp/coverage.txt" :=
  ⟨(c3_copy_absent.1 engCopyNotFound "/tmp/coverage.txt").mpr
      (Or.inl ⟨.simple "file does not exist", rfl⟩),
   c3_copy_absent.2.2.1 engCopyFound "/tmp/coverage.txt" "mode: set" (by rfl),
   c3_copy_absent.2.2.2 ⟨some engCopyNotFound⟩⟩

theorem errorsIs_self (e : GoError) : errorsIs e e = true := by
  cases e <;> simp [errorsIs]

theorem wrapTimeoutErrorSome_cases (ctxErr : CtxState) (e : GoError) (operation : String) :
    wrapTimeoutErrorSome ctxErr e operation = .timeoutErr operation e ∨
    wrapTimeoutErrorSome ctxErr e operation = .wrapf ("failed to " ++ operation) e := by
  unfold wrapTimeoutErrorSome
  by_cases h : ctxErr = .deadlineExceeded
  · exact Or.inl (by rw [if_pos h])
  · exact Or.inr (by rw [if_neg h])

/-- Claim C4 (amended): wrapping a nil error yields nil; under an exceeded
deadline the wrap is a `TimeoutError` whose message is
`timeout during <phase>: <cause>` and which `errors.Is`-unwraps to the
cause; under a live (or merely canceled) context it is a plain wrap with
message `failed to <phase>: <cause>`; and every error `Run` returns is
either the options-validation wrap or carries exactly one of the phases
"create network", "create container", "execute tests" at top level. -/
theorem c4_timeout_wrapping :
    (∀ (ctxErr : CtxState) (operation : String),
      wrapTimeoutError ctxErr none operation = none) ∧
    (∀ (e : GoError) (operation : String),
      wrapTimeoutError .deadlineExceeded (some e) operation =
        some (.timeoutErr operation e) ∧
      (GoError.timeoutErr operation e).message =
        "timeout during " ++ operation ++ ": " ++ e.message ∧
      (GoError.timeoutErr operation e).isTimeout = true ∧
      errorsIs (.timeoutErr operation e) e = true) ∧
    (∀ (ctxErr : CtxState) (e : GoError) (operation : String),
      ctxErr ≠ .deadlineExceeded →
      wrapTimeoutError ctxErr (some e) operation =
        some (.wrapf ("failed to " ++ operation) e) ∧
      (GoError.wrapf ("failed to " ++ operation) e).message =
        "failed to " ++ operation ++ ": " ++ e.message ∧
      (GoError.wrapf ("failed to " ++ operation) e).isTimeout = false ∧
      errorsIs (.wrapf ("failed to " ++ operation) e) e = true) ∧
    (∀ (env : RunEnv) (p : String) (o : List Opt) (er : GoError),
      (Run env p o).1 = .error er →
      (∃ c, er = .wrapf "invalid options" c) ∨
      (∃ operation c,
        (operation = "create network" ∨ operation = "create container" ∨
         operation = "execute tests") ∧
        (er = .timeoutErr operation c ∨ er = .wrapf ("failed to " ++ operation) c))) := by
  refine ⟨fun _ _ => rfl, ?_, ?_, ?_⟩
  · intro e operation
    refine ⟨rfl, rfl, rfl, ?_⟩
    simp [errorsIs, errorsIs_self]
  · intro ctxErr e operation h
    have hw : wrapTimeoutErrorSome ctxErr e operation = .wrapf ("failed to " ++ operation) e := by
      unfold wrapTimeoutErrorSome
      rw [if_neg h]
    refine ⟨?_, rfl, rfl, ?_⟩
    · show some (wrapTimeoutErrorSome ctxErr e operation) = _
      rw [hw]
    · simp [errorsIs, errorsIs_self]
  · intro env p o er h
    rcases hno : NewOptions p o with e | options
    · simp only [Run, hno] at h
      exact Or.inl ⟨e, (Except.error.inj h).symm⟩
    · simp only [Run, hno] at h
      rcases hnet : env.netRes with e | net
      · simp only [runNetworkPhase, hnet] at h
        refine Or.inr ⟨"create network", e, Or.inl rfl, ?_⟩
        have her := (Except.error.inj h).symm
        subst her
        exact wrapTimeoutErrorSome_cases env.ctxAtNet e "create network"
      · simp only [runNetworkPhase, hnet] at h
        rcases hctr : env.ctrRes with e | container
        · simp only [runContainerPhase, hctr] at h
          refine Or.inr ⟨"create container", e, Or.inr (Or.inl rfl), ?_⟩
          have her := (Except.error.inj h).symm
          subst her
          exact wrapTimeoutErrorSome_cases env.ctxAtCtr e "create container"
        · simp only [runContainerPhase, hctr] at h
          rcases hex : execTestWithStreaming env.ctxAtExec container options with e | er2
          · simp only [runExecPhase, hex] at h
            refine Or.inr ⟨"execute tests", e, Or.inr (Or.inr rfl), ?_⟩
            have her := (Except.error.inj h).symm
            subst her
            exact wrapTimeoutErrorSome_cases env.ctxAtExec e "execute tests"
          · simp only [runExecPhase, hex] at h
            simp at h

/-- Claim C4 counterexample: the `TimeoutError` message is not
`timeout during <phase>` — `Error()` appends the cause, giving
`timeout during <phase>: <cause>`. -/
theorem c4_counterexample :
    wrapTimeoutError .deadlineExceeded (some (.simple "boom")) "create network" =
      some (.timeoutErr "create network" (.simple "boom")) ∧
    (GoError.timeoutErr "create network" (.simple "boom")).message =
      "timeout during create network: boom" ∧
    (GoError.timeoutErr "create network" (.simple "boom")).message ≠
      "timeout during create network" ∧
    errorsIs (.timeoutErr "create network" (.simple "boom")) (.simple "boom") = true := by
  exact ⟨rfl, by decide, by decide, by decide⟩

/-- Witness for the C4 theorem at concrete phases and causes. -/
theorem c4_witness :
    wrapTimeoutError .deadlineExceeded (some (.simple "boom")) "execute tests" =
      some (.timeoutErr "execute tests" (.simple "boom")) ∧
    errorsIs (.timeoutErr "execute tests" (.simple "boom")) (.simple "boom") = true ∧
    wrapTimeoutError .live (some (.simple "boom")) "create container" =
      some (.wrapf "failed to create container" (.simple "boom")) ∧
    (GoError.wrapf "failed to create container" (.simple "boom")).message =
      "failed to create container: boom" ∧
    wrapTimeoutError .live none "create network" = none :=
  ⟨(c4_timeout_wrapping.2.1 (.simple "boom") "execute tests").1,
   (c4_timeout_wrapping.2.1 (.simple "boom") "execute tests").2.2.2,
   (c4_timeout_wrapping.2.2.1 .live (.simple "boom") "create container" (by decide)).1,
   (c4_timeout_wrapping.2.2.1 .live (.simple "boom") "create container" (by decide)).2.1,
   c4_timeout_wrapping.1 .live "create network"⟩

/-- Claim C5, evaluated at the failing input: `Run` with `WithTimeout(1)`
whose deadline expires during test execution.  Both deferred cleanups are
invoked with the timeout-derived bounded context — the reassigned `ctx`
captured by the deferred closures — not the ambient caller context, so the
engine refuses them and the resources leak; the claim (and run.go's own
"ensure cleanup always happens" comments) requires the ambient context. -/
theorem c5_cleanup_uses_expired_context :
    (Run envDeadline "/pkg" [Opt.withTimeout 1]).1 =
      .error (.timeoutErr "execute tests"
        (.timeoutErr "execute test command" (.simple "context deadline exceeded"))) ∧
    (Run envDeadline "/pkg" [Opt.withTimeout 1]).2 =
      [CleanupEvent.terminateContainer (CtxKind.bounded 1)
         (some (.wrapf "failed to terminate container" (.simple "context deadline exceeded"))),
       CleanupEvent.cleanupNetwork (CtxKind.bounded 1)
         (some (.wrapf "failed to remove docker network" (.simple "context deadline exceeded")))] ∧
    (CleanupEvent.terminateContainer (CtxKind.bounded 1)
         (some (.wrapf "failed to terminate container" (.simple "context deadline exceeded")))).ctxOf
       ≠ CtxKind.ambient ∧
    (CleanupEvent.cleanupNetwork (CtxKind.bounded 1)
         (some (.wrapf "failed to remove docker network" (.simple "context deadline exceeded")))).ctxOf
       ≠ CtxKind.ambient := by
  exact ⟨rfl, rfl, by decide, by decide⟩

theorem execTestWithStreaming_some (ctxErr : CtxState) (eng : EngineContainer)
    (options : Options) :
    execTestWithStreaming ctxErr ⟨some eng⟩ options =
      match eng.exec (buildTestCmd options) with
      | .error e => .error (wrapTimeoutErrorSome ctxErr e "execute test command")
      | .ok (exitCode, none) => .ok ⟨none, exitCode⟩
      | .ok (exitCode, some (.content s)) => .ok ⟨some s, exitCode⟩
      | .ok (_exitCode, some (.readFail e)) =>
          .error (wrapTimeoutErrorSome ctxErr e "read test output") := rfl

theorem runCoverage_terminate_irrelevant
    (ex : List String → Except GoError (Int × Option StreamOut))
    (cp : String → CopyOutcome) (t t' : Except GoError Unit) :
    runCoverage ⟨some ⟨ex, cp, t⟩⟩ = runCoverage ⟨some ⟨ex, cp, t'⟩⟩ := by
  unfold runCoverage TestContainer.CopyCoverage TestContainer.CopyFileFromContainer
  rcases hcp : cp DefaultCoverageFile with c | e | e | e <;> simp [hcp]

theorem execTestWithStreaming_exec_only (ctxErr : CtxState) (options : Options)
    (f g : List String → Except GoError (Int × Option StreamOut))
    (cpA cpB : String → CopyOutcome) (tA tB : Except GoError Unit)
    (hfg : f (buildTestCmd options) = g (buildTestCmd options)) :
    execTestWithStreaming ctxErr ⟨some ⟨f, cpA, tA⟩⟩ options
      = execTestWithStreaming ctxErr ⟨some ⟨g, cpB, tB⟩⟩ options := by
  rw [execTestWithStreaming_some, execTestWithStreaming_some]
  dsimp only
  rw [hfg]

/-- Claim C6: on every exit path of `Run` on which both sessions were
created, the deferred cleanups fire container-`Terminate` strictly before
network release (Go's LIFO defers, network registered first); and a cleanup
failure can never replace or mask the primary result — the result component
of `Run` is unchanged under any outcome of the network removal and of the
container termination. -/
theorem c6_cleanup_order_and_isolation :
    (∀ (env : RunEnv) (p : String) (o : List Opt) (options : Options)
        (net : NetworkModel) (container : TestContainer),
      NewOptions p o = .ok options →
      env.netRes = .ok net →
      env.ctrRes = .ok container →
      (Run env p o).2 =
        [.terminateContainer (runCtxKind options) container.Terminate,
         .cleanupNetwork (runCtxKind options) (networkCleanupResult net)]) ∧
    (∀ (env : RunEnv) (p : String) (o : List Opt) (nm : String)
        (r r' : Except GoError Unit),
      (Run { env with netRes := .ok ⟨nm, r⟩ } p o).1 =
      (Run { env with netRes := .ok ⟨nm, r'⟩ } p o).1) ∧
    (∀ (env : RunEnv) (p : String) (o : List Opt)
        (ex : List String → Except GoError (Int × Option StreamOut))
        (cp : String → CopyOutcome) (t t' : Except GoError Unit),
      (Run { env with ctrRes := .ok ⟨some ⟨ex, cp, t⟩⟩ } p o).1 =
      (Run { env with ctrRes := .ok ⟨some ⟨ex, cp, t'⟩⟩ } p o).1) := by
  refine ⟨?_, ?_, ?_⟩
  · intro env p o options net container hno hnet hctr
    simp only [Run, hno, runNetworkPhase, hnet, runContainerPhase, hctr]
    rcases hex : execTestWithStreaming env.ctxAtExec container options with e | er <;>
      simp only [runExecPhase, hex]
  · intro env p o nm r r'
    rcases hno : NewOptions p o with e | options <;> simp only [Run, hno]
    rcases hctr : env.ctrRes with e | container <;>
      simp only [runNetworkPhase, runContainerPhase, hctr]
    rcases hex : execTestWithStreaming env.ctxAtExec container options with e | er <;>
      simp only [runExecPhase, hex]
  · intro env p o ex cp t t'
    rcases hno : NewOptions p o with e | options <;> simp only [Run, hno]
    rcases hnet : env.netRes with e | net <;>
      simp only [runNetworkPhase, hnet, runContainerPhase]
    simp only [runExecPhase]
    rw [execTestWithStreaming_exec_only env.ctxAtExec options ex ex cp cp t t' rfl]
    rcases hex : execTestWithStreaming env.ctxAtExec ⟨some ⟨ex, cp, t'⟩⟩ options with e | er <;>
      simp only [hex]
    rw [runCoverage_terminate_irrelevant ex cp t t']

/-- Witness for the C6 ordering statement at a concrete run. -/
theorem c6_witness :
    NewOptions "/pkg" [Opt.withArgs ["-v"]] = .ok optionsVerbose ∧
    (Run envExitOne "/pkg" [Opt.withArgs ["-v"]]).2 =
      [.terminateContainer (runCtxKind optionsVerbose)
         (TestContainer.Terminate ⟨some engExitOne⟩),
       .cleanupNetwork (runCtxKind optionsVerbose)
         (networkCleanupResult ⟨"net", .ok ()⟩)] :=
  ⟨rfl,
   c6_cleanup_order_and_isolation.1 envExitOne "/pkg" [Opt.withArgs ["-v"]]
     optionsVerbose ⟨"net", .ok ()⟩ ⟨some engExitOne⟩ rfl rfl rfl⟩

/-- Claim C7: when the in-container test command executes and exits — with
any exit code, in particular a non-zero one — `Run` returns a populated
`Result` carrying that exit code and the captured output, with a nil error;
the coverage copy cannot turn this into an error. -/
theorem c7_failing_tests_not_error (env : RunEnv) (p : String) (o : List Opt)
    (options : Options) (net : NetworkModel) (eng : EngineContainer)
    (code : Int) (s : String)
    (hno : NewOptions p o = .ok options)
    (hnet : env.netRes = .ok net)
    (hctr : env.ctrRes = .ok ⟨some eng⟩)
    (hex : eng.exec (buildTestCmd options) = .ok (code, some (.content s))) :
    execTestWithStreaming env.ctxAtExec ⟨some eng⟩ options = .ok ⟨some s, code⟩ ∧
    (Run env p o).1 = .ok ⟨some s, runCoverage ⟨some eng⟩, code⟩ := by
  have h1 : execTestWithStreaming env.ctxAtExec ⟨some eng⟩ options = .ok ⟨some s, code⟩ := by
    rw [execTestWithStreaming_some]
    rw [hex]
  refine ⟨h1, ?_⟩
  simp only [Run, hno, runNetworkPhase, hnet, runContainerPhase, hctr, runExecPhase, h1]

/-- Witness for the C7 theorem: an exit-code-1 test run produces a
populated result and no error. -/
theorem c7_witness :
    (1 : Int) ≠ 0 ∧
    execTestWithStreaming envExitOne.ctxAtExec ⟨some engExitOne⟩ optionsVerbose =
      .ok ⟨some "--- FAIL: TestX", 1⟩ ∧
    (Run envExitOne "/pkg" [Opt.withArgs ["-v"]]).1 =
      .ok ⟨some "--- FAIL: TestX", runCoverage ⟨some engExitOne⟩, 1⟩ :=
  ⟨by decide,
   (c7_failing_tests_not_error envExitOne "/pkg" [Opt.withArgs ["-v"]] optionsVerbose
      ⟨"net", .ok ()⟩ engExitOne 1 "--- FAIL: TestX" rfl rfl rfl rfl).1,
   (c7_failing_tests_not_error envExitOne "/pkg" [Opt.withArgs ["-v"]] optionsVerbose
      ⟨"net", .ok ()⟩ engExitOne 1 "--- FAIL: TestX" rfl rfl rfl rfl).2⟩

/-- Claim C8: on a session whose handle is nil, `execTestWithStreaming`,
`ExecTest` and `CopyFileFromContainer` return the distinct
"container is nil" error immediately — the engine record is never consulted
(a nil session carries no engine at all) — and `Terminate` is a no-op
returning nil. -/
theorem c8_nil_session_fast_fail :
    (∀ (ctxErr : CtxState) (options : Options),
      execTestWithStreaming ctxErr ⟨none⟩ options = .error (.simple "container is nil")) ∧
    (∀ (ctxErr : CtxState) (cfg : ExecConfig),
      TestContainer.ExecTest ⟨none⟩ ctxErr cfg = .error (.simple "container is nil")) ∧
    (∀ fp : String,
      TestContainer.CopyFileFromContainer ⟨none⟩ fp = .error (.simple "container is nil")) ∧
    TestContainer.Terminate ⟨none⟩ = none :=
  ⟨fun _ _ => rfl, fun _ _ => rfl, fun _ => rfl, rfl⟩

theorem foldl_applyOpt_args (opts : List Opt) : ∀ o : Options,
    (opts.foldl applyOpt o).args = o.args ++ argsOfOpts opts := by
  induction opts with
  | nil => intro o; simp [argsOfOpts]
  | cons x rest ih =>
      intro o
      rw [List.foldl_cons, ih]
      cases x <;> simp [applyOpt, argsOfOpts, List.append_assoc]

theorem foldl_applyOpt_pattern (opts : List Opt) : ∀ o : Options,
    (∀ x ∈ opts, isWithPattern x = false) → (opts.foldl applyOpt o).pattern = o.pattern := by
  induction opts with
  | nil => intro o _; rfl
  | cons x rest ih =>
      intro o h
      rw [List.foldl_cons, ih _ (fun y hy => h y (List.mem_cons_of_mem x hy))]
      cases x <;>
        first
        | rfl
        | (have hx := h _ (List.mem_cons_self _ _); simp [isWithPattern] at hx)

theorem foldl_applyOpt_timeout (opts : List Opt) : ∀ o : Options,
    (∀ x ∈ opts, isWithTimeout x = false) → (opts.foldl applyOpt o).timeout = o.timeout := by
  induction opts with
  | nil => intro o _; rfl
  | cons x rest ih =>
      intro o h
      rw [List.foldl_cons, ih _ (fun y hy => h y (List.mem_cons_of_mem x hy))]
      cases x <;>
        first
        | rfl
        | (have hx := h _ (List.mem_cons_self _ _); simp [isWithTimeout] at hx)

theorem NewOptions_ok (p : String) (opts : List Opt) (options : Options)
    (h : NewOptions p opts = .ok options) :
    options = opts.foldl applyOpt
      { packagePath := p, pattern := DefaultPattern, args := [], aliases := []
        enableVarSock := false, sockPath := DefaultSockPath, timeout := DefaultTimeout } := by
  unfold NewOptions at h
  by_cases hp : p = ""
  · rw [if_pos hp] at h
    cases h
  · rw [if_neg hp] at h
    exact (Except.ok.inj h).symm

/-- Claim C9: the argv executed in the container is exactly
`go test -coverprofile=/tmp/coverage.txt <pattern> <extra args...>`; the
pattern defaults to `./...` when no `WithPattern` option is supplied;
the extra args are the `WithArgs` lists concatenated verbatim in call
order; and `execTestWithStreaming` consults the engine's exec only at that
argv. -/
theorem c9_test_argv (p : String) (opts : List Opt) (options : Options)
    (h : NewOptions p opts = .ok options) :
    buildTestCmd options =
      ["go", "test", "-coverprofile=/tmp/coverage.txt", options.pattern] ++ options.args ∧
    options.args = argsOfOpts opts ∧
    ((∀ x ∈ opts, isWithPattern x = false) → options.pattern = "./...") ∧
    (∀ (ctxErr : CtxState)
        (f g : List String → Except GoError (Int × Option StreamOut))
        (cpA cpB : String → CopyOutcome) (tA tB : Except GoError Unit),
      f (buildTestCmd options) = g (buildTestCmd options) →
      execTestWithStreaming ctxErr ⟨some ⟨f, cpA, tA⟩⟩ options
        = execTestWithStreaming ctxErr ⟨some ⟨g, cpB, tB⟩⟩ options) := by
  refine ⟨rfl, ?_, ?_, fun ctxErr f g cpA cpB tA tB hfg =>
    execTestWithStreaming_exec_only ctxErr options f g cpA cpB tA tB hfg⟩
  · rw [NewOptions_ok p opts options h, foldl_applyOpt_args]
    simp
  · intro hnp
    rw [NewOptions_ok p opts options h, foldl_applyOpt_pattern _ _ hnp]
    rfl

/-- Witness for the C9 theorem: two cumulative `WithArgs` calls around a
`WithAliases` call keep their order in the final argv. -/
theorem c9_witness :
    NewOptions "/pkg" optsCumulative = .ok optionsCumulative ∧
    buildTestCmd optionsCumulative =
      ["go", "test", "-coverprofile=/tmp/coverage.txt", "./...", "-v", "-race", "-count=1"] ∧
    optionsCumulative.args = argsOfOpts optsCumulative :=
  ⟨rfl,
   ((c9_test_argv "/pkg" optsCumulative optionsCumulative rfl).1).trans rfl,
   (c9_test_argv "/pkg" optsCumulative optionsCumulative rfl).2.1⟩

/-- Claim C10: with no `WithTimeout` option, `NewOptions` installs the
10-minute default (600000000000 ns), which is positive, so `Run` derives a
bounded sub-context by default; a zero configured timeout makes `Run`
derive no timeout sub-context. -/
theorem c10_default_timeout :
    (∀ (p : String) (opts : List Opt) (options : Options),
      NewOptions p opts = .ok options →
      (∀ x ∈ opts, isWithTimeout x = false) →
      options.timeout = DefaultTimeout ∧ runCtxKind options = .bounded DefaultTimeout) ∧
    DefaultTimeout = 600000000000 ∧
    (0 : Int) < DefaultTimeout ∧
    (∀ options : Options, options.timeout = 0 → runCtxKind options = .ambient) := by
  refine ⟨?_, by decide, by decide, ?_⟩
  · intro p opts options h hnt
    have ht : options.timeout = DefaultTimeout := by
      rw [NewOptions_ok p opts options h, foldl_applyOpt_timeout _ _ hnt]
    refine ⟨ht, ?_⟩
    unfold runCtxKind
    rw [ht, if_pos (by decide : (0 : Int) < DefaultTimeout)]
  · intro options h0
    unfold runCtxKind
    rw [h0]
    rw [if_neg (by decide : ¬((0 : Int) > 0))]

/-- Witness for the C10 theorem: the defaults at a concrete call, and an
explicit `WithTimeout(0)` configuration yielding no bounded sub-context. -/
theorem c10_witness :
    NewOptions "/pkg" [] = .ok optionsDefault ∧
    optionsDefault.timeout = DefaultTimeout ∧
    runCtxKind optionsDefault = .bounded DefaultTimeout ∧
    runCtxKind { optionsDefault with timeout := 0 } = .ambient :=
  ⟨rfl,
   (c10_default_timeout.1 "/pkg" [] optionsDefault rfl (by simp)).1,
   (c10_default_timeout.1 "/pkg" [] optionsDefault rfl (by simp)).2,
   c10_default_timeout.2.2.2 { optionsDefault with timeout := 0 } rfl⟩
